import Mathlib

/-!
Verification development for the reactivity core of the Vue-analysis repository
(src/index.js, second document section, lines 118-647). The data model and the
operational behavior of the proxy traps, track/trigger, the effect runtime,
computed, watch, the batched job queue and proxyRefs are embedded as executable
Lean definitions, translated line by line from the source, and the specified
properties are settled against them.
-/

namespace VueAnalysis

/-- JavaScript values as far as the reactivity core distinguishes them: the
special values undefined and null, booleans, numbers (with NaN kept as its own
constructor so that strict-equality can treat it per IEEE), strings, and
objects identified by identity (an id). -/
inductive JSVal where
  | undefined
  | jnull
  | bool (b : Bool)
  | num (n : Int)
  | nan
  | str (s : String)
  | obj (id : Nat)
deriving DecidableEq, Repr

/-- JavaScript strict equality `===` / `!==`: NaN is never equal to anything
(itself included); every other value is equal exactly to itself (objects by
identity). -/
def strictEq : JSVal → JSVal → Bool
  | .nan, _ => false
  | _, .nan => false
  | a, b => decide (a = b)

/-- Property keys of the (single modeled) target. `idx n` is a numeric string
key (an array index); the named constructors stand for the distinct string
keys that the source code treats specially (`length`, `raw`, `value`) plus
ordinary user keys. -/
inductive Key where
  | idx (n : Nat)
  | length
  | raw
  | value
  | foo
  | bar
  | other (n : Nat)
deriving DecidableEq, Repr

/-- The mutation kinds computed by the set/delete traps (src/index.js 152-158,
146): "SET", "ADD", "DELETE". -/
inductive MutType where
  | SET
  | ADD
  | DELETE
deriving DecidableEq, Repr

/-- The one scheduler shape that the reactivity core itself installs: computed's
scheduler (src/index.js 298-302), which flips the dirty flag. -/
inductive Sched where
  | flipDirty
deriving DecidableEq, Repr

/-- The body of an effect function, as the small statement language the claims
need: reading / writing / deleting a property of the reactive proxy, a plain
constant, a conditional on a plain (non-reactive) boolean, sequencing, reading
the computed's `.value`, and calling the instrumented `push`. -/
inductive Prog where
  | nop
  | lit (v : JSVal)
  | read (k : Key)
  | write (k : Key) (v : JSVal)
  | del (k : Key)
  | iteFlag (p q : Prog)
  | seq (p q : Prog)
  | readCValue
  | push (v : JSVal)
deriving Repr

/-- An effect registration: the function it wraps and its options record
(src/index.js 240-256): optional laziness and optional scheduler. -/
structure EffDef where
  fn : Prog
  sched : Option Sched := none
  lazy : Bool := false

/-- The fixed environment of a scenario: which program each effect id wraps,
and which effect id is the computed's internal effect (src/index.js 296). -/
structure Env where
  effs : Nat → EffDef
  innerEff : Nat := 0

/-- The global mutable state of the reactivity core, for one reactive target:
the target's own properties (`store`, none = absent key), whether it is an
array, the Dependency Store for this target (`bucket`, plus `iterDeps` for the
ITERATE_KEY and `trackedKeys` for the key set of the depsMap, which decides
`if (!depsMap) return` in trigger), each effect's reverse index
(`effIdx`, the code's effectFn.deps, recorded as keys since sets are per key),
the effect stack and active effect (src/index.js 237-239), the process-wide
shouldTrack flag (line 280), one plain non-reactive boolean `flag` that
conditional effect bodies branch on, the computed's dirty flag and cached
value (lines 294-295), a log of effect-function executions (model
observation), an exception flag (`exn`, a raised JS error propagating), and a
fuel-exhaustion marker (`stuck`, a model artifact never set in the proofs). -/
structure St where
  store : Key → Option JSVal := fun _ => none
  isArr : Bool := false
  bucket : Key → List Nat := fun _ => []
  iterDeps : List Nat := []
  trackedKeys : List Key := []
  effIdx : Nat → List Key := fun _ => []
  stack : List Nat := []
  active : Option Nat := none
  shouldTrack : Bool := true
  flag : Bool := true
  dirty : Bool := true
  cval : JSVal := .undefined
  log : List Nat := []
  exn : Bool := false
  stuck : Bool := false

/-- Reading a raw property: an absent key reads as undefined. -/
def getVal (st : St) (k : Key) : JSVal := (st.store k).getD .undefined

/-- Object.prototype.hasOwnProperty.call(target, key). -/
def hasOwn (st : St) (k : Key) : Bool := (st.store k).isSome

/-- Raw property write (Reflect.set on the plain target). -/
def setStore (st : St) (k : Key) (v : JSVal) : St :=
  { st with store := fun k' => if k' = k then some v else st.store k' }

/-- JS Set.add: appends if not present (insertion order preserved). -/
def addUnique (l : List Nat) (e : Nat) : List Nat := if e ∈ l then l else l ++ [e]

/-- Map key creation for the depsMap key set. -/
def addKeyUnique (l : List Key) (k : Key) : List Key := if k ∈ l then l else l ++ [k]

/-- target.length as a number (arrays keep their length in the length key). -/
def jsLen (st : St) : Int :=
  match getVal st .length with
  | .num n => n
  | _ => 0

/-- The identity of the single modeled raw target, as a JS value. -/
def targetObj : JSVal := .obj 0

/-- track (src/index.js 169-181): a no-op without an active effect; otherwise
ensures the depsMap and the key's Set exist, adds the active effect to the
Set, and pushes that Set onto the active effect's reverse index (the code
pushes unconditionally, even when the Set already held the effect). Note:
this function never consults the shouldTrack flag. -/
def track (st : St) (k : Key) : St :=
  match st.active with
  | none => st
  | some e =>
    { st with
      bucket := fun k' => if k' = k then addUnique (st.bucket k) e else st.bucket k'
      trackedKeys := addKeyUnique st.trackedKeys k
      effIdx := fun e' => if e' = e then st.effIdx e ++ [k] else st.effIdx e' }

/-- get trap (src/index.js 125-131) for ordinary data keys: track, then read
through Reflect.get. The instrumented array methods are modeled at their call
sites; there is no special case for the key `raw`, so reading `raw` takes
this ordinary path and yields the target's own `raw` property, which is
absent (hence undefined) on ordinary targets. -/
def proxyGet (st : St) (k : Key) : St × JSVal :=
  if st.exn then (st, .undefined) else (track st k, getVal st k)

/-- cleanup (src/index.js 229-235): delete the effect from every Set in its
reverse index, then clear the index. -/
def cleanup (st : St) (e : Nat) : St :=
  { st with
    bucket := fun k => if k ∈ st.effIdx e then (st.bucket k).filter (fun x => x != e) else st.bucket k
    effIdx := fun e' => if e' = e then [] else st.effIdx e' }

/-- The interpreter call shapes, fused into one fueled function so that the
recursion is structural on the fuel. -/
inductive Task where
  | prog (p : Prog)
  | runEff (e : Nat)
  | trig (k : Key) (ty : MutType)
  | effList (es : List Nat)
  | one (e : Nat)
  | pset (k : Key) (v : JSVal)
  | pdel (k : Key)
  | cread
  | ipush (v : JSVal)

/-- One fueled interpreter for the mutually recursive operations of the core.
Each branch is a transcription of the corresponding source lines:
* `runEff e` - the effect wrapper effectFn (241-249): cleanup, set
  activeEffect, push onto effectStack, run fn, pop, restore activeEffect from
  the stack top. The wrapper body has no return statement, so the call yields
  undefined.
* `trig k ty` - trigger (184-227): return if no depsMap; effectsToRun is the
  key's Set plus, for ADD/DELETE, the ITERATE_KEY Set; each member then runs
  (scheduler if present, else directly). The array branches at 207-215 and
  216-226 execute only after that forEach, and only add members to
  effectsToRun, so nothing further runs; the 216-226 branch additionally
  evaluates `key >= newVal` where `newVal` is not among trigger's parameters
  (target, key, type), raising a ReferenceError on the first depsMap entry
  (the depsMap is nonempty whenever this point is reached), modeled by exn.
* `pset k v` - set trap (150-166): read old value, compute the mutation kind
  (for arrays, SET when the numeric key is below length, else ADD - the
  string key length itself converts to NaN, hence ADD; for objects, by
  hasOwnProperty), Reflect.set, then compare `target === receiver.raw`
  (receiver.raw is a full proxy get) and, when equal, apply the same-value
  guard `oldVal !== newVal && (oldVal === oldVal || newVal === newVal)`
  before calling trigger.
* `pdel k` - deleteProperty trap (142-148): trigger DELETE only when the key
  existed and deletion succeeded (it does for ordinary own properties).
* `cread` - computed's value getter (305-311): when dirty, invoke the
  internal effect handle, cache its returned value, clear dirty; else return
  the cache.
* `ipush v` - the instrumented push (283-288): set shouldTrack false, run
  Array.prototype.push on the proxy (which reads length through the get trap,
  then writes the element at the old length and the new length through the
  set trap), set shouldTrack true. No try/finally.
* `one e` - the dispatch of trigger's forEach body (200-206): scheduler if
  declared (computed's scheduler, 298-302, flips dirty when clear), else run
  the effect.
-/
def step : Nat → Env → St → Task → St × JSVal
  | 0, _, st, _ => ({ st with stuck := true }, .undefined)
  | fuel+1, env, st, t =>
    if st.exn then (st, .undefined) else
    match t with
    | .prog .nop => (st, .undefined)
    | .prog (.lit v) => (st, v)
    | .prog (.read k) => proxyGet st k
    | .prog (.write k v) => ((step fuel env st (.pset k v)).1, v)
    | .prog (.del k) => step fuel env st (.pdel k)
    | .prog (.iteFlag p q) =>
        if st.flag then step fuel env st (.prog p) else step fuel env st (.prog q)
    | .prog (.seq p q) => step fuel env (step fuel env st (.prog p)).1 (.prog q)
    | .prog .readCValue => step fuel env st .cread
    | .prog (.push v) => step fuel env st (.ipush v)
    | .runEff e =>
        let st1 := cleanup st e
        let st2 := { st1 with active := some e, stack := st1.stack ++ [e], log := st1.log ++ [e] }
        let st3 := (step fuel env st2 (.prog (env.effs e).fn)).1
        let stack' := st3.stack.dropLast
        ({ st3 with stack := stack', active := stack'.getLast? }, .undefined)
    | .trig k ty =>
        if st.trackedKeys = [] then (st, .undefined)
        else
          let toRun := (st.bucket k ++
            (if ty = MutType.ADD ∨ ty = MutType.DELETE then st.iterDeps else [])).foldl addUnique []
          let st1 := (step fuel env st (.effList toRun)).1
          if st1.exn then (st1, .undefined)
          else if st.isArr && k = Key.length then ({ st1 with exn := true }, .undefined)
          else (st1, .undefined)
    | .effList [] => (st, .undefined)
    | .effList (e :: rest) =>
        step fuel env (step fuel env st (.one e)).1 (.effList rest)
    | .one e =>
        match (env.effs e).sched with
        | some .flipDirty => (if st.dirty then st else { st with dirty := true }, .undefined)
        | none => step fuel env st (.runEff e)
    | .pset k v =>
        let oldVal := getVal st k
        let ty : MutType :=
          if st.isArr then
            match k with
            | .idx n => if (n : Int) < jsLen st then .SET else .ADD
            | _ => .ADD
          else if hasOwn st k then .SET else .ADD
        let st1 := setStore st k v
        let pr := proxyGet st1 .raw
        if strictEq targetObj pr.2 then
          if (!strictEq oldVal v) && (strictEq oldVal oldVal || strictEq v v) then
            ((step fuel env pr.1 (.trig k ty)).1, .bool true)
          else (pr.1, .bool true)
        else (pr.1, .bool true)
    | .pdel k =>
        let hadKey := hasOwn st k
        let st1 := { st with store := fun k' => if k' = k then none else st.store k' }
        if hadKey then ((step fuel env st1 (.trig k .DELETE)).1, .bool true)
        else (st1, .bool true)
    | .cread =>
        if st.dirty then
          let r := step fuel env st (.runEff env.innerEff)
          (({ r.1 with cval := r.2, dirty := false }), r.2)
        else (st, st.cval)
    | .ipush v =>
        let st1 := { st with shouldTrack := false }
        let pr := proxyGet st1 .length
        let n : Nat := match pr.2 with | .num m => m.toNat | _ => 0
        let st3 := (step fuel env pr.1 (.pset (.idx n) v)).1
        let st4 := (step fuel env st3 (.pset .length (.num ((n : Int) + 1)))).1
        ({ st4 with shouldTrack := true }, .num ((n : Int) + 1))

/-- Invoking an effect handle (the code's effectFn). The returned value is the
wrapper's return value. -/
def runEffectFn (fuel : Nat) (env : Env) (st : St) (e : Nat) : St × JSVal :=
  step fuel env st (.runEff e)

/-- Running an effect body (a statement list), yielding its value. -/
def runProg (fuel : Nat) (env : Env) (st : St) (p : Prog) : St × JSVal :=
  step fuel env st (.prog p)

/-- trigger (src/index.js 184-227). -/
def trigger (fuel : Nat) (env : Env) (st : St) (k : Key) (ty : MutType) : St :=
  (step fuel env st (.trig k ty)).1

/-- The reactive proxy's set trap (src/index.js 150-166). -/
def proxySet (fuel : Nat) (env : Env) (st : St) (k : Key) (v : JSVal) : St :=
  (step fuel env st (.pset k v)).1

/-- The reactive proxy's deleteProperty trap (src/index.js 142-148). -/
def proxyDelete (fuel : Nat) (env : Env) (st : St) (k : Key) : St :=
  (step fuel env st (.pdel k)).1

/-- computed's value getter (src/index.js 305-311). -/
def computedRead (fuel : Nat) (env : Env) (st : St) : St × JSVal :=
  step fuel env st .cread

/-- The instrumented push (src/index.js 283-288). -/
def arrayPush (fuel : Nat) (env : Env) (st : St) (v : JSVal) : St × JSVal :=
  step fuel env st (.ipush v)

/-- effect(fn, options) (src/index.js 240-256): builds the wrapper and, unless
options.lazy, runs it once immediately; returns the wrapper (here: the id). -/
def effect (fuel : Nat) (env : Env) (st : St) (e : Nat) : St :=
  if (env.effs e).lazy then st else (runEffectFn fuel env st e).1

/-- The empty initial state: a fresh plain-object target with no properties,
no recorded dependencies, no running effect. -/
def st0 : St := {}

/-- The JS errors the embedded code can raise. -/
inductive JSErr where
  | typeError
  | referenceError
deriving DecidableEq, Repr

/-- JS truthiness, for the `value._v_isRef ?` tests. -/
def truthy : JSVal → Bool
  | .undefined => false
  | .jnull => false
  | .bool b => b
  | .num n => decide (n ≠ 0)
  | .nan => false
  | .str s => decide (s ≠ "")
  | .obj _ => true

/-! ### watch (src/index.js 317-339) -/

/-- The identifiers bound in the body of `watch` (src/index.js 317-339): its
two declared parameters `source` and `cb`, and its five local declarations.
There is no `options` parameter and no `options` local. -/
def watchScope : List String := ["source", "cb", "getter", "oldValue", "newValue", "job", "effectFn"]

/-- What one call of `watch` observably does before returning: how many times
the user callback ran, how many times the watch effect ran, and the error, if
any, that the call raised. -/
structure WatchOutcome where
  cbCalls : Nat
  effectRuns : Nat
  thrown : Option JSErr
deriving DecidableEq, Repr

/-- watch (src/index.js 317-339). The body builds `getter` and `job` and
creates the effect with `lazy: true` (line 330-333), so nothing has run yet;
then line 334 evaluates `options.immediate`. `options` is not among the
identifiers in watch's scope, so the lookup raises a ReferenceError before
the callback or the effect can ever run. The then-branch below is the
behavior the spec describes, which would require an `options` binding to
exist; it is unreachable for this code. The argument records whether the
caller intended immediate semantics (the code cannot even receive it: watch
declares only two parameters). -/
def watch (immediateWanted : Bool) : WatchOutcome :=
  if "options" ∈ watchScope then
    { cbCalls := if immediateWanted then 1 else 0, effectRuns := if immediateWanted then 1 else 1,
      thrown := none }
  else
    { cbCalls := 0, effectRuns := 0, thrown := some .referenceError }

/-! ### queueJob (src/index.js 529-546) -/

/-- The batching state: the pending-job Set (insertion ordered, deduplicated),
the flushing flag, whether a flush microtask is scheduled, and the log of job
executions. -/
structure QSt where
  queue : List Nat := []
  isFlushing : Bool := false
  microPending : Bool := false
  ran : List Nat := []
deriving DecidableEq, Repr

/-- queueJob (src/index.js 533-546): add the job to the Set; if not already
flushing, raise the flag and schedule the flush microtask. -/
def queueJob (st : QSt) (j : Nat) : QSt :=
  let q := addUnique st.queue j
  if st.isFlushing then { st with queue := q }
  else { st with queue := q, isFlushing := true, microPending := true }

/-- queue.forEach(job => job()) under an environment saying which jobs throw:
jobs run in insertion order; a throwing job aborts the iteration. Returns the
jobs that executed and whether one threw. -/
def runJobs (throws : Nat → Bool) : List Nat → List Nat × Bool
  | [] => ([], false)
  | j :: rest =>
    if throws j then ([j], true)
    else
      let r := runJobs throws rest
      (j :: r.1, r.2)

/-- The flush microtask body (src/index.js 537-544):
`try { queue.forEach(job => job()) } finally { isFlushing = false; queue.clear = 0 }`.
The finally clause runs whether or not a job threw, and resets the flushing
flag; but `queue.clear = 0` assigns the number 0 to a property named `clear`
on the Set instead of calling `queue.clear()`, so the Set keeps every element. -/
def flushJobs (throws : Nat → Bool) (st : QSt) : QSt :=
  let r := runJobs throws st.queue
  { st with ran := st.ran ++ r.1, isFlushing := false, microPending := false }

/-- A job environment in which no job throws. -/
def noThrow : Nat → Bool := fun _ => false

/-! ### proxyRefs (src/index.js 387-402) -/

/-- The ref boxes reachable from a proxyRefs target: which object ids carry
the non-enumerable `_v_isRef` marker (src/index.js 356-358), and the current
content of each object's `value` property. -/
structure RefEnv where
  isRef : Nat → Bool
  valField : Nat → JSVal

/-- The member access `value._v_isRef` as JS evaluates it: on undefined and on
null it raises a TypeError; on any other primitive it yields undefined; on an
object it yields the marker if present. -/
def memberIsRef (env : RefEnv) (v : JSVal) : Except JSErr JSVal :=
  match v with
  | .undefined => .error .typeError
  | .jnull => .error .typeError
  | .obj i => .ok (if env.isRef i then .bool true else .undefined)
  | _ => .ok .undefined

/-- proxyRefs' get trap (src/index.js 389-392): read the property, probe its
`_v_isRef` marker, and return `value.value` for refs, the value itself
otherwise. -/
def proxyRefsGet (env : RefEnv) (store : Key → Option JSVal) (k : Key) : Except JSErr JSVal :=
  let value := (store k).getD .undefined
  match memberIsRef env value with
  | .error e => .error e
  | .ok m =>
    if truthy m then
      match value with
      | .obj i => .ok (env.valField i)
      | _ => .ok .undefined
    else .ok value

/-- proxyRefs' set trap (src/index.js 393-399): read the current value of the
key, probe its `_v_isRef` marker; for a ref, write into the ref's `value`
property; otherwise perform a plain Reflect.set. Returns the updated ref
environment and target store. -/
def proxyRefsSet (env : RefEnv) (store : Key → Option JSVal) (k : Key) (nv : JSVal) :
    Except JSErr (RefEnv × (Key → Option JSVal)) :=
  let value := (store k).getD .undefined
  match memberIsRef env value with
  | .error e => .error e
  | .ok m =>
    if truthy m then
      match value with
      | .obj i => .ok ({ env with valField := fun j => if j = i then nv else env.valField j }, store)
      | _ => .ok (env, store)
    else .ok (env, fun k' => if k' = k then some nv else store k')

/-! ### Scenario environments and states for the claims -/

/-- C1 scenario: one effect (id 0) that reads `foo`; it is already subscribed
to (target, foo); the target's `foo` currently holds the number 1, and the
target (like any plain object) has no own `raw` property. -/
def envC1 : Env := { effs := fun _ => { fn := .read .foo } }

/-- C1 scenario state (see envC1). -/
def stC1 : St :=
  { store := fun k => if k = Key.foo then some (.num 1) else none
    bucket := fun k => if k = Key.foo then [0] else []
    trackedKeys := [.foo]
    effIdx := fun e => if e = 0 then [.foo] else [] }

/-- C2 scenario: one effect (id 0) whose computation reads `foo` and then
mutates it by deleting it, so the self-caused trigger fires while the effect
is the active effect (the delete trap calls trigger directly, with no raw
receiver guard in the way). -/
def envC2 : Env := { effs := fun _ => { fn := .seq (.read .foo) (.del .foo) } }

/-- C2 scenario state: the target owns `foo`. -/
def stC2 : St := { store := fun k => if k = Key.foo then some (.num 1) else none }

/-- C3 scenario: effect 1 is the computed's internal effect (lazy, with the
dirty-flipping scheduler), its getter reads the upstream key `foo`; effect 0
is the outer effect whose computation reads the computed's `.value`. -/
def envC3 : Env :=
  { effs := fun e =>
      if e = 1 then { fn := .read .foo, sched := some .flipDirty, lazy := true }
      else { fn := .readCValue }
    innerEff := 1 }

/-- C3 scenario state: upstream `foo` holds 1; the computed starts dirty. -/
def stC3 : St := { store := fun k => if k = Key.foo then some (.num 1) else none }

/-- C3 scenario run: `effect(() => c.value)` runs once on creation. -/
def c3run : St := effect 10 envC3 stC3 0

/-- C4 scenario: effect 0 wraps a function that returns the number 42 and is
created lazy, so it runs only when the returned handle is invoked; the same
effect serves as a computed's internal effect (innerEff defaults to 0). -/
def envC4 : Env := { effs := fun _ => { fn := .lit (.num 42), lazy := true } }

/-- C5 scenario: every effect id wraps the branching computation
`flag ? read a : read b` on two keys a and b. -/
def branchEnv (a b : Key) : Env :=
  { effs := fun _ => { fn := .iteFlag (.read a) (.read b) } }

/-- C5: the state after the first run of effect 0 from the fresh state, with
the plain condition `flag` true (the a-branch is taken). -/
def branchRun1 (f : Nat) (a b : Key) : St :=
  (runEffectFn (f+3) (branchEnv a b) st0 0).1

/-- C5: the state after flipping the plain condition and re-running effect 0
(the b-branch is taken on the second run). -/
def branchRun2 (f : Nat) (a b : Key) : St :=
  (runEffectFn (f+3) (branchEnv a b) { branchRun1 f a b with flag := false } 0).1

/-- C6 scenario: a reactive 3-element array; effect 0 reads index 2 and is
subscribed to it; no effect is subscribed to `length`. -/
def envC6 : Env := { effs := fun _ => { fn := .read (.idx 2) } }

/-- C6 scenario state (see envC6). -/
def stC6 : St :=
  { store := fun k =>
      if k = Key.length then some (.num 3) else
      if k = Key.idx 0 then some (.num 10) else
      if k = Key.idx 1 then some (.num 11) else
      if k = Key.idx 2 then some (.num 12) else none
    isArr := true
    bucket := fun k => if k = Key.idx 2 then [0] else []
    trackedKeys := [.idx 2]
    effIdx := fun e => if e = 0 then [.idx 2] else [] }

/-- C9 scenario: a reactive empty array; effect 0's computation calls the
instrumented `push`. -/
def envC9 : Env := { effs := fun _ => { fn := .push (.num 1) } }

/-- C9 scenario state (see envC9). -/
def stC9 : St :=
  { store := fun k => if k = Key.length then some (.num 0) else none
    isArr := true }

/-- C9 scenario run: `effect(() => arr.push(1))` runs once on creation. -/
def c9run : St := effect 10 envC9 stC9 0

/-! ### Theorems for the claims -/

/-- C1: the claim says a write of a different value (under same-value
semantics) through the proxy re-runs each subscribed effect exactly once. On
this code it re-runs none: the get trap has no case for the key `raw`, so
`receiver.raw` in the set trap reads an ordinary absent property and yields
undefined, the guard `target === receiver.raw` is always false, and trigger
is never called. Here effect 0 is subscribed to `foo`, the old value 1 and
new value 2 differ under `!==`, the write is stored, the run completes, yet
the execution log stays empty. -/
theorem c1_changed_write_runs_no_effect :
    0 ∈ stC1.bucket Key.foo ∧
    strictEq (getVal stC1 Key.foo) (JSVal.num 2) = false ∧
    getVal (proxySet 10 envC1 stC1 Key.foo (.num 2)) Key.foo = JSVal.num 2 ∧
    (proxySet 10 envC1 stC1 Key.foo (.num 2)).log = [] ∧
    (proxySet 10 envC1 stC1 Key.foo (.num 2)).stuck = false := by decide

/-- C2: the claim says trigger never runs the effect that is currently the
active effect for the very mutation it is causing. On this code the main
effectsToRun loop has no `effectFn !== activeEffect` guard (the guard exists
only in the two array branches, which run after the execution loop), so an
effect that reads `foo` and then deletes `foo` is re-entered by its own
trigger: creating it produces two executions in the log, the second launched
from inside trigger while the effect was active. -/
theorem c2_trigger_reruns_active_effect :
    (runEffectFn 20 envC2 stC2 0).1.log = [0, 0] ∧
    (runEffectFn 20 envC2 stC2 0).1.stuck = false := by decide

/-- C3: the claim says an effect that reads a computed's `.value` becomes a
dependent of the computed's upstream keys and re-runs when they change. On
this code no such propagation exists: after `effect(() => c.value)` runs,
only the computed's internal effect (id 1) is in the dependency set of the
upstream key `foo`, the outer effect (id 0) is not; a trigger on `foo` only
flips the computed's dirty flag through the internal effect's scheduler and
re-runs nothing, so the log is unchanged. -/
theorem c3_outer_effect_not_dependent_on_upstream :
    c3run.bucket Key.foo = [1] ∧
    0 ∉ c3run.bucket Key.foo ∧
    (trigger 10 envC3 c3run Key.foo .SET).log = c3run.log ∧
    c3run.dirty = false ∧
    (trigger 10 envC3 c3run Key.foo .SET).dirty = true ∧
    c3run.stuck = false := by decide

/-- C4: the claim says the handle returned by `effect(fn, options)` re-runs
fn and returns fn's result. On this code the wrapper calls `fn()` without
capturing the result and has no return statement, so invoking the handle of
`effect(() => 42, {lazy: true})` yields undefined, not 42; consequently a
computed over the same getter caches undefined as its value. -/
theorem c4_handle_returns_undefined_not_fn_result :
    (runProg 10 envC4 st0 (Prog.lit (.num 42))).2 = JSVal.num 42 ∧
    (runEffectFn 10 envC4 st0 0).2 = JSVal.undefined ∧
    (computedRead 10 envC4 st0).2 = JSVal.undefined ∧
    (computedRead 10 envC4 st0).1.cval = JSVal.undefined := by decide

/-- C5: for an effect whose computation conditionally reads one of two keys
a and b (a plain boolean chooses the branch), after a run the effect sits in
exactly the dependency sets of the keys read in that run: after the first run
(a-branch) it is in a key's set precisely for the key a and is not an
iterate-key dependent; after flipping the condition and re-running it is in a
set precisely for b and in particular has been removed from a's set; and a
subsequent write to the untaken key a re-runs nothing (the execution log is
unchanged). -/
theorem c5_branch_sensitive_tracking (f : Nat) (a b : Key) (v : JSVal) (k : Key)
    (hab : a ≠ b) (ha : a ≠ Key.raw) :
    (0 ∈ (branchRun1 f a b).bucket k ↔ k = a) ∧
    0 ∉ (branchRun1 f a b).iterDeps ∧
    (0 ∈ (branchRun2 f a b).bucket k ↔ k = b) ∧
    0 ∉ (branchRun2 f a b).bucket a ∧
    (proxySet (f+1) (branchEnv a b) (branchRun2 f a b) a v).log = (branchRun2 f a b).log := by
  refine ⟨?_, ?_, ?_, ?_, ?_⟩
  · simp [branchRun1, runEffectFn, step, cleanup, track, proxyGet, getVal, addUnique,
      addKeyUnique, st0, branchEnv]
  · simp [branchRun1, runEffectFn, step, cleanup, track, proxyGet, getVal, addUnique,
      addKeyUnique, st0, branchEnv]
  · simp [branchRun2, branchRun1, runEffectFn, step, cleanup, track, proxyGet, getVal,
      addUnique, addKeyUnique, st0, branchEnv, hab, Ne.symm hab]
    split_ifs <;> simp_all
  · simp [branchRun2, branchRun1, runEffectFn, step, cleanup, track, proxyGet, getVal,
      addUnique, addKeyUnique, st0, branchEnv, hab, Ne.symm hab]
  · simp [branchRun2, branchRun1, runEffectFn, proxySet, step, cleanup, track, proxyGet,
      getVal, addUnique, addKeyUnique, st0, branchEnv, setStore, hasOwn, jsLen,
      targetObj, strictEq, hab, Ne.symm hab, ha, Ne.symm ha]

/-- C5 witness: the branch-sensitivity theorem instantiated at the concrete
keys foo and bar, the written value 5, and the probe key foo. -/
theorem c5_branch_sensitive_tracking_witness :
    (0 ∈ (branchRun1 0 Key.foo Key.bar).bucket Key.foo ↔ Key.foo = Key.foo) ∧
    0 ∉ (branchRun1 0 Key.foo Key.bar).iterDeps ∧
    (0 ∈ (branchRun2 0 Key.foo Key.bar).bucket Key.foo ↔ Key.foo = Key.bar) ∧
    0 ∉ (branchRun2 0 Key.foo Key.bar).bucket Key.foo ∧
    (proxySet (0+1) (branchEnv Key.foo Key.bar) (branchRun2 0 Key.foo Key.bar) Key.foo
      (JSVal.num 5)).log = (branchRun2 0 Key.foo Key.bar).log :=
  c5_branch_sensitive_tracking 0 Key.foo Key.bar (JSVal.num 5) Key.foo
    (by decide) (by decide)

/-- C6: the claim says writing a new length L to a reactive array's `length`
runs every effect tracked on a numeric index ≥ L. On this code, first, the
write through the proxy never reaches trigger at all (the raw-receiver guard
is always false), so nothing runs and no error surfaces; second, even calling
trigger directly for the length key runs no index effect - the array branches
only add members to effectsToRun after the execution loop has finished - and
then raises a ReferenceError because the loop reads `newVal`, which is not
among trigger's parameters. Effect 0 is tracked on index 2 ≥ 0, yet no run is
logged on either path. -/
theorem c6_length_write_runs_no_index_effect :
    0 ∈ stC6.bucket (Key.idx 2) ∧
    (proxySet 10 envC6 stC6 Key.length (.num 0)).log = [] ∧
    (proxySet 10 envC6 stC6 Key.length (.num 0)).exn = false ∧
    (trigger 10 envC6 stC6 Key.length .ADD).log = [] ∧
    (trigger 10 envC6 stC6 Key.length .ADD).exn = true := by decide

/-- C7: the claim says `watch(source, cb, {immediate:true})` calls cb once
immediately and without immediate calls it only on a change. On this code
every call of watch throws a ReferenceError before the callback or the watch
effect can run: watch declares only the parameters (source, cb) and line 334
reads the free identifier `options`, which is bound nowhere in its scope. -/
theorem c7_watch_always_throws_before_callback :
    (watch true).thrown = some JSErr.referenceError ∧
    (watch true).cbCalls = 0 ∧
    (watch true).effectRuns = 0 ∧
    (watch false).thrown = some JSErr.referenceError ∧
    (watch false).cbCalls = 0 := by decide

/-- C8: the claim says that when a flush finishes the pending-job set is
empty, so a job queued once does not execute again in a later flush unless
re-queued. On this code the finally block's `queue.clear = 0` assigns a
property instead of calling `queue.clear()`: after queueing job 0 and
flushing, the flushing flag is reset but the pending set still holds job 0;
queueing a different job 1 and flushing again executes job 0 a second time
(run log [0, 0, 1]) although it was never re-queued. -/
theorem c8_flush_keeps_pending_jobs_and_reruns_them :
    (flushJobs noThrow (queueJob {} 0)).queue = [0] ∧
    (flushJobs noThrow (queueJob {} 0)).isFlushing = false ∧
    (flushJobs noThrow (queueJob (flushJobs noThrow (queueJob {} 0)) 1)).ran = [0, 0, 1] := by
  decide

/-- C9: the claim says push/pop/shift/unshift/splice run with tracking
disabled process-wide, so no dependency edges are recorded during the call.
On this code `track` never consults the shouldTrack flag, so the internal
`length` read performed by the instrumented `push` records a dependency edge
while the flag is false: after `effect(() => arr.push(1))` the effect is in
the dependency set of `length`. The flag itself is back to true on the
normal path (the restore-on-throw half of the claim also fails in the
source - lines 283-288 have no try/finally - which the run log cannot
witness, but the recorded edge alone refutes the claim). -/
theorem c9_tracking_not_disabled_during_push :
    c9run.bucket Key.length = [0] ∧
    c9run.shouldTrack = true ∧
    c9run.stuck = false := by decide

/-- C10: for every proxyRefs target and key whose current value is undefined
(including an absent key) or null, both reading the key through the wrapper
and writing any value to it through the wrapper raise a TypeError - the traps
probe `value._v_isRef` on the nullish value - instead of returning or storing
a value. -/
theorem c10_proxyRefs_throws_on_nullish (env : RefEnv) (store : Key → Option JSVal)
    (k : Key) (nv : JSVal)
    (h : store k = none ∨ store k = some .undefined ∨ store k = some .jnull) :
    proxyRefsGet env store k = .error .typeError ∧
    proxyRefsSet env store k nv = .error .typeError := by
  rcases h with h | h | h <;>
    simp [proxyRefsGet, proxyRefsSet, memberIsRef, h]

/-- C10 witness: an empty target (every key absent, read as undefined) with
no refs: reading `foo` and writing 1 to `foo` through proxyRefs both raise
TypeError. -/
theorem c10_proxyRefs_throws_on_nullish_witness :
    proxyRefsGet ⟨fun _ => false, fun _ => .undefined⟩ (fun _ => none) Key.foo = .error .typeError ∧
    proxyRefsSet ⟨fun _ => false, fun _ => .undefined⟩ (fun _ => none) Key.foo (.num 1) =
      .error .typeError :=
  c10_proxyRefs_throws_on_nullish _ _ _ _ (Or.inl rfl)

end VueAnalysis
